import Mathlib

/-!
Verification development for the `explore` client core
(`src/Backend/GameLogic/GameManager.ts`).

The GameManager orchestrates two subsystems: a spatial mining engine that
discovers chunks of the world, and an optimistic entity-reconciliation
protocol that tracks player transaction intents through a
submit/confirm/revert lifecycle.

We shallowly embed the relevant parts of `GameManager.ts`:

* pure data (planets, artifacts, chunks, transaction intents) becomes Lean
  structures and inductives;
* each handler or public operation becomes a Lean function from an explicit
  `GameState` to a result carrying the next state, the ordered list of
  observable side effects (ledger reads/writes, entity-store mutations,
  notifications, ...) and the error it threw, if any;
* the remote ledger (`ContractsAPI` read responses) is an explicit oracle
  parameter `Ledger`.

Methods of the `GameObjects` entity store (a collaborator class whose source
file is not part of this repository snapshot) are modelled from the
specification where needed; each such definition is marked
`Modelled from the spec:` in its doc comment.  Everything else is a direct
translation of `GameManager.ts`, with line references.
-/

/-- An integer point `(x, y)` in the world plane (`WorldCoords`). -/
structure WorldCoords where
  x : Int
  y : Int
deriving DecidableEq, BEq

/-- A coordinate together with its hash-derived location id (`WorldLocation`).
We model location ids (and all entity ids) as naturals. -/
structure WorldLocation where
  coords : WorldCoords
  hash : Nat
deriving DecidableEq, BEq

/-- An axis-aligned square chunk footprint (`Rectangle`). -/
structure Rectangle where
  bottomLeftX : Int
  bottomLeftY : Int
  sideLength : Nat
deriving DecidableEq, BEq

/-- The result of exhaustively hashing a footprint (`Chunk`): the footprint
and the object locations discovered inside it. -/
structure Chunk where
  chunkFootprint : Rectangle
  planetLocations : List WorldLocation
deriving DecidableEq, BEq

/-- The fields of a `Planet` record that the claims under verification
depend on. `location` is `none` for a ledger-known but un-mined planet
(`isLocatable` is `location.isSome`). -/
structure Planet where
  owner : Nat
  location : Option WorldLocation
  coordsRevealed : Bool
  unconfirmedReveal : Bool
  heldArtifactIds : List Nat
deriving DecidableEq, BEq

/-- The fields of an `Artifact` record the claims depend on
(`isActivated artifact`). -/
structure Artifact where
  activated : Bool
deriving DecidableEq, BEq

/-- A transaction intent (`TxIntent` / `SubmittedTx`).  The TypeScript code
is a discriminated union over `EthTxType`; each constructor carries the
payload fields the `GameManager` handlers inspect.  A `SubmittedTx` is a
`TxIntent` plus a transport hash, which no handler logic depends on, so we
identify the two. -/
inductive TxIntent
  | reveal (locationId : Nat)
  | move (fromId toId : Nat) (forces silver : Int) (artifact : Option Nat)
  | upgrade (locationId : Nat) (branch : Nat)
  | buyHat (locationId : Nat)
  | initPlayer (locationId : Nat)
  | findArtifact (planetId : Nat)
  | depositArtifact (locationId artifactId : Nat)
  | withdrawArtifact (locationId artifactId : Nat)
  | prospectPlanet (planetId : Nat)
  | activateArtifact (locationId artifactId : Nat) (wormholeTo : Option Nat)
  | deactivateArtifact (locationId artifactId : Nat)
  | withdrawSilver (locationId : Nat) (amount : Int)
  | planetTransfer (planetId : Nat) (newOwner : Nat)
deriving DecidableEq, BEq

/-- One observable side effect issued by a `GameManager` operation, in
program order.  Ledger reads mirror the `ContractsAPI` read methods, store
mutations mirror the `GameObjects` mutators, and the remaining constructors
mirror local-only effects (notifications, terminal output, localStorage,
chunk-store persistence, miner control, event emission). -/
inductive Effect
  | localStorageSet
  | terminalPrint
  | notifyTxSubmit
  | notifyTxConfirm
  | notifyTxRevert
  | notifyUnsubmittedTxFail
  | storeOnTxIntent (intent : TxIntent)
  | storeClearTxIntent (intent : TxIntent)
  | storeReplacePlanet (planetId : Nat) (withVoyages : Bool) (withArtifactIds : Bool)
  | storeReplaceArtifact (artifactId : Nat)
  | storeAddPlanetLocation (hash : Nat)
  | chunkStoreAddChunk
  | chunkStoreTxComplete
  | ledgerGetPlanetById (planetId : Nat)
  | ledgerGetArrivalsForPlanet (planetId : Nat)
  | ledgerBulkGetArtifactsOnPlanets (planetIds : List Nat)
  | ledgerGetRevealedCoords (planetId : Nat)
  | ledgerGetAllArrivals (planetIds : List Nat)
  | ledgerBulkGetPlanets (planetIds : List Nat)
  | ledgerGetArtifactById (artifactId : Nat)
  | snarkGetRevealArgs
  | snarkGetMoveArgs
  | contractSubmit (intent : TxIntent)
  | emitDiscoveredNewChunk
  | minerStartExplore
  | minerStopExplore
  | minerSetRadius
deriving DecidableEq, BEq

/-- Whether an effect is a read from the remote ledger (`ContractsAPI`
read call). -/
def Effect.isLedgerRead : Effect → Bool
  | .ledgerGetPlanetById _ => true
  | .ledgerGetArrivalsForPlanet _ => true
  | .ledgerBulkGetArtifactsOnPlanets _ => true
  | .ledgerGetRevealedCoords _ => true
  | .ledgerGetAllArrivals _ => true
  | .ledgerBulkGetPlanets _ => true
  | .ledgerGetArtifactById _ => true
  | _ => false

/-- Whether an effect is a write submitted to the remote ledger. -/
def Effect.isLedgerWrite : Effect → Bool
  | .contractSubmit _ => true
  | _ => false

/-- Whether an effect is any network interaction with the ledger. -/
def Effect.isNetworkCall (e : Effect) : Bool :=
  e.isLedgerRead || e.isLedgerWrite

/-- Whether an effect mutates the entity store (`GameObjects`). -/
def Effect.isEntityStoreMutation : Effect → Bool
  | .storeOnTxIntent _ => true
  | .storeClearTxIntent _ => true
  | .storeReplacePlanet _ _ _ => true
  | .storeReplaceArtifact _ => true
  | .storeAddPlanetLocation _ => true
  | _ => false

/-- Whether an effect refetches or replaces dependent collections (voyages
or artifacts) rather than just a single planet's own fields. -/
def Effect.refetchesDependents : Effect → Bool
  | .ledgerGetArrivalsForPlanet _ => true
  | .ledgerGetAllArrivals _ => true
  | .ledgerBulkGetArtifactsOnPlanets _ => true
  | .ledgerGetArtifactById _ => true
  | .storeReplacePlanet _ withVoyages withArtifactIds => withVoyages || withArtifactIds
  | .storeReplaceArtifact _ => true
  | _ => false

/-- Read responses of the remote ledger (`ContractsAPI`), as an oracle:
whether `getPlanetById` / `getArtifactById` find a record, and which
artifact ids `bulkGetArtifactsOnPlanets` reports on each planet. -/
structure Ledger where
  hasPlanet : Nat → Bool
  hasArtifact : Nat → Bool
  artifactsOnPlanet : Nat → List Nat

/-- The `GameManager`-visible client state: the account, game-clock facts,
the entity store contents, the spec's touched-ids set, the pending-reveal
tracker, mining state and the diagnostic hash rate. -/
structure GameState where
  account : Option Nat
  gameHasEnded : Bool
  planets : List (Nat × Planet)
  artifacts : List (Nat × Artifact)
  touchedPlanetIds : List Nat
  pendingReveal : Option Nat
  unconfirmedMoves : List TxIntent
  discoveredLocationIds : List Nat
  lastRevealTimestamp : Option Nat
  nowMillis : Nat
  revealCooldown : Nat
  worldRadius : Int
  minerManager : Bool
  hashRate : ℚ
deriving DecidableEq

/-- Errors thrown by `GameManager` operations; one constructor per `throw`
site relevant to the claims. -/
inductive GameError
  | noAccountSet
  | planetNotDiscovered
  | planetNotLocatable
  | coordsAlreadyRevealed
  | alreadyRevealingThisPlanet
  | alreadyBroadcastingCoords
  | revealOnCooldown
  | outOfBoundsMove
  | moveFromUnownedPlanet
  | artifactNotFound
  | artifactIsActivated
  | artifactNotOnPlanet
deriving DecidableEq, BEq

/-- The synchronous outcome of one `GameManager` operation: the next state,
the ordered effects it issued, and the error it threw (if any). -/
structure OpResult where
  state : GameState
  effects : List Effect
  error : Option GameError
deriving DecidableEq

/-- Modelled from the spec: the entity store's per-id planet lookup table
(`GameObjects.planets`); the store holds exactly one in-memory record per
id. -/
def lookupPlanet (s : GameState) (planetId : Nat) : Option Planet :=
  s.planets.lookup planetId

/-- Modelled from the spec: the entity store's per-id artifact lookup table
(`GameObjects.artifacts`). -/
def lookupArtifact (s : GameState) (artifactId : Nat) : Option Artifact :=
  s.artifacts.lookup artifactId

/-- Modelled from the spec: `GameObjects.getLocationOfPlanet` returns the
planet's location when it is known (the entity has been mined), else
`undefined`. -/
def getLocationOfPlanet (s : GameState) (planetId : Nat) : Option WorldLocation :=
  (lookupPlanet s planetId).bind (fun p => p.location)

/-- Modelled from the spec: `GameObjects.getPlanetWithLocation` returns the
planet record living at the given location; location hashes are the planet
ids. -/
def getPlanetWithLocation (s : GameState) (loc : WorldLocation) : Option Planet :=
  lookupPlanet s loc.hash

/-- Modelled from the spec: `GameObjects.isPlanetInContract` tests the
"touched ids" set of ids known to exist on the ledger, populated at startup
and grown as new on-ledger ids are learned. -/
def isPlanetInContract (s : GameState) (planetId : Nat) : Bool :=
  s.touchedPlanetIds.contains planetId

/-- Replace the record of one planet id in the store. -/
def updatePlanet (s : GameState) (planetId : Nat) (f : Planet → Planet) : GameState :=
  { s with planets := s.planets.map (fun kv => if kv.1 = planetId then (kv.1, f kv.2) else kv) }

/-- Modelled from the spec: `GameObjects.onTxIntent` (the target of
`GameManager.handleTxIntent`, line 2278) applies an intent optimistically by
setting the corresponding `unconfirmed<Kind>` flag on the target entity.  We
model the flag state for the reveal and move kinds, which the claims
exercise; for the other kinds the store state relevant to the claims is
unchanged. -/
def onTxIntent (s : GameState) (intent : TxIntent) : GameState :=
  match intent with
  | .reveal locationId =>
      { updatePlanet s locationId (fun p => { p with unconfirmedReveal := true }) with
        pendingReveal := some locationId }
  | .move _ _ _ _ _ =>
      { s with unconfirmedMoves := s.unconfirmedMoves ++ [intent] }
  | _ => s

/-- `GameManager.getNextBroadcastAvailableTimestamp` (lines 1347-1368):
`undefined` (and, by JS truthiness, `0`) timestamps mean "available now". -/
def getNextBroadcastAvailableTimestamp (s : GameState) : Nat :=
  match s.lastRevealTimestamp with
  | none => s.nowMillis
  | some ts => if ts = 0 then s.nowMillis else (ts + s.revealCooldown) * 1000

/-- The reveal-cooldown test of `GameManager.revealLocation`
(lines 1403-1411): `myLastRevealTimestamp && Date.now() < nextAvailable`. -/
def revealCooldownActive (s : GameState) : Bool :=
  match s.lastRevealTimestamp with
  | none => false
  | some ts => decide (ts ≠ 0 ∧ s.nowMillis < getNextBroadcastAvailableTimestamp s)

/-- `GameManager.revealLocation` (lines 1373-1449), synchronous part: the
validation chain, the optimistic apply (`handleTxIntent`) and the kickoff of
the snark-argument request.  The asynchronous continuation is
`revealSubmitPipeline` below. -/
def revealLocation (s : GameState) (planetId : Nat) : OpResult :=
  if s.gameHasEnded then
    { state := s, effects := [.terminalPrint], error := none }
  else if s.account.isNone then
    { state := s, effects := [], error := some .noAccountSet }
  else
    match lookupPlanet s planetId with
    | none => { state := s, effects := [], error := some .planetNotDiscovered }
    | some planet =>
      if planet.location.isNone then
        { state := s, effects := [], error := some .planetNotLocatable }
      else if planet.coordsRevealed then
        { state := s, effects := [], error := some .coordsAlreadyRevealed }
      else if planet.unconfirmedReveal then
        { state := s, effects := [], error := some .alreadyRevealingThisPlanet }
      else if s.pendingReveal.isSome then
        { state := s, effects := [], error := some .alreadyBroadcastingCoords }
      else if revealCooldownActive s then
        { state := s, effects := [], error := some .revealOnCooldown }
      else
        { state := onTxIntent s (.reveal planetId),
          effects := [.localStorageSet, .storeOnTxIntent (.reveal planetId), .snarkGetRevealArgs],
          error := none }

/-- `GameManager.onTxIntentFail` (lines 773-782): notify, print, clear the
unconfirmed intent flag. -/
def onTxIntentFail (intent : TxIntent) : List Effect :=
  [.notifyUnsubmittedTxFail, .terminalPrint, .storeClearTxIntent intent]

/-- The asynchronous snark-then-submit promise chain of
`GameManager.revealLocation` (lines 1429-1446): on snark success the args
are printed and `contractsAPI.reveal` is invoked; any rejection along the
chain lands in the single `catch`, which calls `onTxIntentFail`. -/
def revealSubmitPipeline (intent : TxIntent) (snarkOk submitOk : Bool) : List Effect :=
  if snarkOk then
    if submitOk then
      [.terminalPrint, .contractSubmit intent]
    else
      [.terminalPrint, .contractSubmit intent] ++ onTxIntentFail intent
  else
    onTxIntentFail intent

/-- The artifact validation block of `GameManager.move` (lines 2089-2103). -/
def moveArtifactCheck (s : GameState) (oldPlanet : Planet)
    (artifactMoved : Option Nat) (bypassChecks : Bool) : Option GameError :=
  match artifactMoved with
  | none => none
  | some artifactId =>
    if bypassChecks then none
    else
      match lookupArtifact s artifactId with
      | none => some .artifactNotFound
      | some artifact =>
        if artifact.activated then some .artifactIsActivated
        else if oldPlanet.heldArtifactIds.contains artifactId then none
        else some .artifactNotOnPlanet

/-- `GameManager.move` (lines 2023-2132), synchronous part.  The two
`localStorageSet` effects are the popup-window bookkeeping written before
any validation that can throw; the out-of-bounds check precedes the
ownership and artifact checks, the optimistic apply and the snark kickoff. -/
def move (s : GameState) (fromId toId : Nat) (forces silver : Int)
    (artifactMoved : Option Nat) (bypassChecks : Bool) : OpResult :=
  if s.gameHasEnded then
    { state := s, effects := [.terminalPrint], error := none }
  else if !bypassChecks && s.gameHasEnded then
    { state := s, effects := [.localStorageSet, .localStorageSet, .terminalPrint], error := none }
  else
    match getLocationOfPlanet s fromId, getLocationOfPlanet s toId with
    | none, _ =>
        { state := s, effects := [.localStorageSet, .localStorageSet], error := none }
    | some _, none =>
        { state := s, effects := [.localStorageSet, .localStorageSet], error := none }
    | some oldLoc, some newLoc =>
      if newLoc.coords.x ^ 2 + newLoc.coords.y ^ 2 ≥ s.worldRadius ^ 2 then
        { state := s, effects := [.localStorageSet, .localStorageSet],
          error := some .outOfBoundsMove }
      else
        match getPlanetWithLocation s oldLoc with
        | none =>
            { state := s, effects := [.localStorageSet, .localStorageSet],
              error := some .moveFromUnownedPlanet }
        | some oldPlanet =>
          if (!bypassChecks && s.account.isNone) || !(s.account == some oldPlanet.owner) then
            { state := s, effects := [.localStorageSet, .localStorageSet],
              error := some .moveFromUnownedPlanet }
          else
            match moveArtifactCheck s oldPlanet artifactMoved bypassChecks with
            | some err =>
                { state := s, effects := [.localStorageSet, .localStorageSet],
                  error := some err }
            | none =>
                { state := onTxIntent s (.move oldLoc.hash newLoc.hash forces silver artifactMoved),
                  effects := [.localStorageSet, .localStorageSet,
                    .storeOnTxIntent (.move oldLoc.hash newLoc.hash forces silver artifactMoved),
                    .snarkGetMoveArgs],
                  error := none }

/-- One entry of the kind-specific refetch plan that the `TxConfirmed`
handler executes before clearing the intent. -/
inductive RefetchCall
  | hardPlanet (planetId : Nat)
  | bulkPlanets (planetIds : List Nat)
  | hardArtifact (artifactId : Nat)
  | softPlanet (planetId : Nat)
deriving DecidableEq, BEq

/-- `GameManager.softRefreshPlanet` (lines 622-626): fetch only the planet
record itself and replace its own fields
(`replacePlanetFromContractData(planet)` with no dependent collections). -/
def softRefreshPlanet (L : Ledger) (planetId : Nat) : List Effect :=
  .ledgerGetPlanetById planetId ::
    if L.hasPlanet planetId then [.storeReplacePlanet planetId false false] else []

/-- `GameManager.hardRefreshPlanet` (lines 628-660): fetch the planet, its
arrivals, its on-planet artifacts and its revealed coords, replace the
planet with all of them, then replace each on-planet artifact. -/
def hardRefreshPlanet (L : Ledger) (planetId : Nat) : List Effect :=
  .ledgerGetPlanetById planetId ::
    if L.hasPlanet planetId then
      [.ledgerGetArrivalsForPlanet planetId,
       .ledgerBulkGetArtifactsOnPlanets [planetId],
       .ledgerGetRevealedCoords planetId,
       .storeReplacePlanet planetId true true]
      ++ (L.artifactsOnPlanet planetId).map Effect.storeReplaceArtifact
    else []

/-- `GameManager.bulkHardRefreshPlanets` (lines 662-708): batched voyage,
planet and artifact reads, then per-planet replaces, then artifact
replaces. -/
def bulkHardRefreshPlanets (L : Ledger) (planetIds : List Nat) : List Effect :=
  [.ledgerGetAllArrivals planetIds,
   .ledgerBulkGetPlanets planetIds,
   .ledgerBulkGetArtifactsOnPlanets planetIds]
  ++ (planetIds.filter L.hasPlanet).map (fun planetId => .storeReplacePlanet planetId true true)
  ++ planetIds.flatMap (fun planetId => (L.artifactsOnPlanet planetId).map Effect.storeReplaceArtifact)

/-- `GameManager.hardRefreshArtifact` (lines 710-714). -/
def hardRefreshArtifact (L : Ledger) (artifactId : Nat) : List Effect :=
  .ledgerGetArtifactById artifactId ::
    if L.hasArtifact artifactId then [.storeReplaceArtifact artifactId] else []

/-- The effects of executing one refetch-plan entry. -/
def refetchCallEffects (L : Ledger) : RefetchCall → List Effect
  | .hardPlanet planetId => hardRefreshPlanet L planetId
  | .bulkPlanets planetIds => bulkHardRefreshPlanets L planetIds
  | .hardArtifact artifactId => hardRefreshArtifact L artifactId
  | .softPlanet planetId => softRefreshPlanet L planetId

/-- The kind-specific refetch plan of the `ContractsAPIEvent.TxConfirmed`
handler (the `isUnconfirmed...` if-chain of lines 542-589).  A planet
transfer matches no branch of the chain and gets no refetch. -/
def txConfirmedRefetchPlan : TxIntent → List RefetchCall
  | .reveal locationId => [.hardPlanet locationId]
  | .move fromId toId _ _ artifact =>
      .bulkPlanets [fromId, toId] ::
        (match artifact with | some a => [.hardArtifact a] | none => [])
  | .upgrade locationId _ => [.hardPlanet locationId]
  | .buyHat locationId => [.hardPlanet locationId]
  | .initPlayer locationId => [.hardPlanet locationId]
  | .findArtifact planetId => [.hardPlanet planetId]
  | .depositArtifact locationId artifactId => [.hardPlanet locationId, .hardArtifact artifactId]
  | .withdrawArtifact locationId artifactId => [.hardPlanet locationId, .hardArtifact artifactId]
  | .prospectPlanet planetId => [.softPlanet planetId]
  | .activateArtifact locationId artifactId _ => [.hardPlanet locationId, .hardArtifact artifactId]
  | .deactivateArtifact locationId artifactId => [.hardPlanet locationId, .hardArtifact artifactId]
  | .withdrawSilver locationId _ => [.softPlanet locationId]
  | .planetTransfer _ _ => []

/-- The `ContractsAPIEvent.TxConfirmed` handler (lines 540-593): chunk-store
bookkeeping, then the kind-specific refetch plan, then the unconditional
`clearUnconfirmedTxIntent`, then `onTxConfirmed` (terminal output and the
confirm notification). -/
def txConfirmedHandler (L : Ledger) (tx : TxIntent) : List Effect :=
  .chunkStoreTxComplete ::
    (txConfirmedRefetchPlan tx).flatMap (refetchCallEffects L)
    ++ [.storeClearTxIntent tx, .terminalPrint, .notifyTxConfirm]

/-- The `ContractsAPIEvent.TxReverted` handler (lines 594-598) inlined with
`onTxReverted` (lines 753-771): clear the flag, chunk-store bookkeeping,
terminal output, revert notification. -/
def txRevertedHandler (tx : TxIntent) : List Effect :=
  [.storeClearTxIntent tx, .chunkStoreTxComplete, .terminalPrint, .notifyTxRevert]

/-- The per-location body of the `addNewChunk` loop (lines 2302-2307):
record the location in the entity store, and kick off a `hardRefreshPlanet`
exactly when the location's id is already known on the ledger. -/
def chunkLocationEffects (L : Ledger) (s : GameState) (loc : WorldLocation) : List Effect :=
  .storeAddPlanetLocation loc.hash ::
    if isPlanetInContract s loc.hash then hardRefreshPlanet L loc.hash else []

/-- `GameManager.addNewChunk` (lines 2300-2310): persist the chunk, then run
the per-location loop. -/
def addNewChunk (L : Ledger) (s : GameState) (chunk : Chunk) : GameState × List Effect :=
  ({ s with discoveredLocationIds :=
      s.discoveredLocationIds ++ chunk.planetLocations.map WorldLocation.hash },
   .chunkStoreAddChunk :: chunk.planetLocations.flatMap (chunkLocationEffects L s))

/-- The `MinerManagerEvent.DiscoveredNewChunk` callback installed by
`initMiningManager` (lines 991-999): `addNewChunk`, then
`hashRate = sideLength ** 2 / (miningTimeMillis / 1000)`, then the
discovery event.  JS numbers are modelled as rationals. -/
def onDiscoveredNewChunk (L : Ledger) (s : GameState) (chunk : Chunk)
    (miningTimeMillis : ℚ) : GameState × List Effect :=
  ({ (addNewChunk L s chunk).1 with
      hashRate := (chunk.chunkFootprint.sideLength : ℚ) ^ 2 / (miningTimeMillis / 1000) },
   (addNewChunk L s chunk).2 ++ [.emitDiscoveredNewChunk])

/-- `GameManager.getHashesPerSec` (lines 1218-1220). -/
def getHashesPerSec (s : GameState) : ℚ :=
  s.hashRate

/-- `GameManager.startExplore` (lines 1294-1298): delegates to the miner if
one exists; does not touch `hashRate`. -/
def startExplore (s : GameState) : GameState × List Effect :=
  if s.minerManager then (s, [.minerStartExplore]) else (s, [])

/-- `GameManager.stopExplore` (lines 1303-1308): zero the hash rate, then
stop the miner, if a miner exists. -/
def stopExplore (s : GameState) : GameState × List Effect :=
  if s.minerManager then ({ s with hashRate := 0 }, [.minerStopExplore]) else (s, [])

/-- `GameManager.setRadius` (lines 1310-1316). -/
def setRadius (s : GameState) (r : Int) : GameState × List Effect :=
  ({ s with worldRadius := r }, if s.minerManager then [.minerSetRadius] else [])

/-- Modelled from the spec: `GameObjects.getPlanetWithId` (the entity
store's read operation; `GameObjects.ts` is not part of this repository
snapshot).  Per §4.4 the spec declares `getEntity` a pure lookup that never
mutates as a side effect, for either value of the staleness flag; the state
is returned alongside the value so that purity is an assertable fact. -/
def gameObjectsGetPlanetWithId (s : GameState) (planetId : Nat)
    (_updateIfStale : Bool) : Option Planet × GameState :=
  (lookupPlanet s planetId, s)

/-- `GameManager.getPlanetWithId` (lines 1104-1106):
`planetId && entityStore.getPlanetWithId(planetId)`. -/
def getPlanetWithId (s : GameState) (planetId : Option Nat) : Option Planet × GameState :=
  match planetId with
  | none => (none, s)
  | some pid => gameObjectsGetPlanetWithId s pid true

/-- `GameManager.getStalePlanetWithId` (lines 1118-1120):
`entityStore.getPlanetWithId(planetId, false)`. -/
def getStalePlanetWithId (s : GameState) (planetId : Nat) : Option Planet × GameState :=
  gameObjectsGetPlanetWithId s planetId false

/-- The mining-related operations a client session can interleave between
two chunk discoveries. -/
inductive MiningOp
  | doStartExplore
  | doStopExplore
  | doSetRadius (r : Int)
  | doAddChunk (chunk : Chunk)
  | chunkDiscovered (chunk : Chunk) (miningTimeMillis : ℚ)
deriving DecidableEq

/-- Whether a mining operation is a chunk-discovery event. -/
def MiningOp.isDiscovery : MiningOp → Bool
  | .chunkDiscovered _ _ => true
  | _ => false

/-- State transition of one mining operation. -/
def applyMiningOp (L : Ledger) (s : GameState) : MiningOp → GameState
  | .doStartExplore => (startExplore s).1
  | .doStopExplore => (stopExplore s).1
  | .doSetRadius r => (setRadius s r).1
  | .doAddChunk chunk => (addNewChunk L s chunk).1
  | .chunkDiscovered chunk millis => (onDiscoveredNewChunk L s chunk millis).1

/-- State after a sequence of mining operations. -/
def applyMiningOps (L : Ledger) (s : GameState) : List MiningOp → GameState
  | [] => s
  | headOp :: rest => applyMiningOps L (applyMiningOp L s headOp) rest

/-- A planet fixture: discovered at `(1, 2)` (location id 1), owned by
player 7, with a pending unconfirmed reveal. -/
def samplePlanet : Planet :=
  { owner := 7, location := some ⟨⟨1, 2⟩, 1⟩, coordsRevealed := false,
    unconfirmedReveal := true, heldArtifactIds := [] }

/-- A planet fixture far from the origin: discovered at `(10, 10)`
(location id 2), owned by player 7. -/
def sampleFarPlanet : Planet :=
  { owner := 7, location := some ⟨⟨10, 10⟩, 2⟩, coordsRevealed := false,
    unconfirmedReveal := false, heldArtifactIds := [] }

/-- A client-state fixture: player 7 logged in, game running, two planets in
the store, ids 1 and 3 known on the ledger, a reveal of planet 1 in flight,
world radius 5, miner initialized. -/
def sampleState : GameState :=
  { account := some 7, gameHasEnded := false,
    planets := [(1, samplePlanet), (2, sampleFarPlanet)], artifacts := [],
    touchedPlanetIds := [1, 3], pendingReveal := some 1, unconfirmedMoves := [],
    discoveredLocationIds := [], lastRevealTimestamp := none, nowMillis := 1000,
    revealCooldown := 60, worldRadius := 5, minerManager := true, hashRate := 0 }

/-- A ledger-oracle fixture: every planet and artifact id resolves, no
artifacts sit on any planet. -/
def sampleLedger : Ledger :=
  { hasPlanet := fun _ => true, hasArtifact := fun _ => true,
    artifactsOnPlanet := fun _ => [] }

/-- A chunk fixture holding two object locations, of which only id 1 is
known on the ledger in `sampleState`. -/
def sampleChunk : Chunk :=
  { chunkFootprint := ⟨0, 0, 16⟩,
    planetLocations := [⟨⟨1, 2⟩, 1⟩, ⟨⟨3, 4⟩, 9⟩] }

/-- C1: when a submitted transaction is confirmed, the handler executes the
kind-specific refetch plan: a move refetches both endpoint planets (and the
moved artifact if the intent carries one); artifact deposit, withdraw,
activate and deactivate refetch both the planet and the artifact;
silver-withdrawal and prospect perform only a single-entity soft refresh of
the planet, which issues no fetch of dependent voyages or artifacts. -/
theorem txConfirmed_refetch_plan_kind_specific (f t a p : Nat) (fo si : Int)
    (wh : Option Nat) (L : Ledger) :
    txConfirmedRefetchPlan (.move f t fo si none) = [.bulkPlanets [f, t]]
  ∧ txConfirmedRefetchPlan (.move f t fo si (some a)) = [.bulkPlanets [f, t], .hardArtifact a]
  ∧ txConfirmedRefetchPlan (.depositArtifact p a) = [.hardPlanet p, .hardArtifact a]
  ∧ txConfirmedRefetchPlan (.withdrawArtifact p a) = [.hardPlanet p, .hardArtifact a]
  ∧ txConfirmedRefetchPlan (.activateArtifact p a wh) = [.hardPlanet p, .hardArtifact a]
  ∧ txConfirmedRefetchPlan (.deactivateArtifact p a) = [.hardPlanet p, .hardArtifact a]
  ∧ txConfirmedRefetchPlan (.withdrawSilver p si) = [.softPlanet p]
  ∧ txConfirmedRefetchPlan (.prospectPlanet p) = [.softPlanet p]
  ∧ (softRefreshPlanet L p).all (fun e => !e.refetchesDependents) = true := by
  refine ⟨rfl, rfl, rfl, rfl, rfl, rfl, rfl, rfl, ?_⟩
  unfold softRefreshPlanet
  cases L.hasPlanet p <;> simp [Effect.refetchesDependents]

/-- C4: the `TxReverted` handler only clears the unconfirmed intent flag and
issues a notification: it performs no ledger read and no entity replacement,
and its only entity-store mutation is the flag clearing. -/
theorem txReverted_clears_flag_only (tx : TxIntent) :
    txRevertedHandler tx
      = [.storeClearTxIntent tx, .chunkStoreTxComplete, .terminalPrint, .notifyTxRevert]
  ∧ (txRevertedHandler tx).all (fun e => !e.isLedgerRead && !e.refetchesDependents) = true
  ∧ (txRevertedHandler tx).all
      (fun e => !e.isEntityStoreMutation || decide (e = .storeClearTxIntent tx)) = true
  ∧ Effect.notifyTxRevert ∈ txRevertedHandler tx := by
  refine ⟨rfl, ?_, ?_, ?_⟩ <;>
    simp [txRevertedHandler, Effect.isLedgerRead, Effect.refetchesDependents,
      Effect.isEntityStoreMutation]

/-- C6: whichever outcome event arrives for a submitted transaction, the
unconfirmed intent flag is cleared: both the confirm handler and the revert
handler issue `clearUnconfirmedTxIntent` unconditionally, for every intent
kind. -/
theorem intent_cleared_on_confirm_and_revert (L : Ledger) (tx : TxIntent) :
    Effect.storeClearTxIntent tx ∈ txConfirmedHandler L tx
  ∧ Effect.storeClearTxIntent tx ∈ txRevertedHandler tx := by
  constructor
  · simp [txConfirmedHandler]
  · simp [txRevertedHandler]

/-- C8: after a chunk-discovery event carrying a chunk and its elapsed
mining time, `getHashesPerSec` returns the chunk footprint's side length
squared divided by the elapsed time in seconds. -/
theorem hashes_per_sec_formula (L : Ledger) (s : GameState) (chunk : Chunk)
    (millis : ℚ) :
    getHashesPerSec (onDiscoveredNewChunk L s chunk millis).1
      = (chunk.chunkFootprint.sideLength : ℚ) ^ 2 / (millis / 1000) := rfl

/-- C9: the by-id entity read (`getPlanetWithId`, `getStalePlanetWithId`) is
a pure lookup: it returns the stored record and leaves the state untouched,
for either value of the staleness flag. -/
theorem getPlanetWithId_pure_lookup (s : GameState) (pid : Nat) :
    getPlanetWithId s (some pid) = (lookupPlanet s pid, s)
  ∧ getPlanetWithId s none = (none, s)
  ∧ getStalePlanetWithId s pid = (lookupPlanet s pid, s) :=
  ⟨rfl, rfl, rfl⟩

/-- C5: when a transaction intent's local submission fails before the
ledger sees it (the snark generation throws, or the contract call rejects),
the pipeline clears the unconfirmed flag and issues a local error
notification, performs no ledger read, and never submits more than once (no
retry). -/
theorem local_submit_failure_clears_and_notifies (intent : TxIntent)
    (snarkOk submitOk : Bool) (hFail : snarkOk = false ∨ submitOk = false) :
    Effect.storeClearTxIntent intent ∈ revealSubmitPipeline intent snarkOk submitOk
  ∧ Effect.notifyUnsubmittedTxFail ∈ revealSubmitPipeline intent snarkOk submitOk
  ∧ (revealSubmitPipeline intent snarkOk submitOk).all (fun e => !e.isLedgerRead) = true
  ∧ ((revealSubmitPipeline intent snarkOk submitOk).filter Effect.isLedgerWrite).length ≤ 1
  ∧ onTxIntentFail intent
      = [.notifyUnsubmittedTxFail, .terminalPrint, .storeClearTxIntent intent] := by
  cases snarkOk <;> cases submitOk <;>
    simp_all [revealSubmitPipeline, onTxIntentFail, Effect.isLedgerRead, Effect.isLedgerWrite]

/-- Witness for C5 at a concrete failing input: the snark generation for a
reveal of planet 1 throws. -/
theorem local_submit_failure_witness :
    Effect.storeClearTxIntent (.reveal 1) ∈ revealSubmitPipeline (.reveal 1) false true
  ∧ Effect.notifyUnsubmittedTxFail ∈ revealSubmitPipeline (.reveal 1) false true
  ∧ (revealSubmitPipeline (.reveal 1) false true).all (fun e => !e.isLedgerRead) = true
  ∧ ((revealSubmitPipeline (.reveal 1) false true).filter Effect.isLedgerWrite).length ≤ 1
  ∧ onTxIntentFail (.reveal 1)
      = [.notifyUnsubmittedTxFail, .terminalPrint, .storeClearTxIntent (.reveal 1)] :=
  local_submit_failure_clears_and_notifies (.reveal 1) false true (Or.inl rfl)

/-- A `hardRefreshPlanet` run issues a `getPlanetById` read exactly for its
own planet id. -/
theorem mem_hardRefreshPlanet_getPlanetById (L : Ledger) (planetId h : Nat) :
    Effect.ledgerGetPlanetById h ∈ hardRefreshPlanet L planetId ↔ h = planetId := by
  unfold hardRefreshPlanet
  cases L.hasPlanet planetId <;> simp

/-- The per-location chunk effects issue a `getPlanetById` read for `h` iff
the location is `h` and `h` is known on the ledger. -/
theorem mem_chunkLocationEffects_getPlanetById (L : Ledger) (s : GameState)
    (loc : WorldLocation) (h : Nat) :
    Effect.ledgerGetPlanetById h ∈ chunkLocationEffects L s loc
      ↔ (loc.hash = h ∧ isPlanetInContract s h = true) := by
  unfold chunkLocationEffects
  by_cases hc : isPlanetInContract s loc.hash
  · simp only [hc, if_true, List.mem_cons, mem_hardRefreshPlanet_getPlanetById]
    constructor
    · rintro (heq | rfl)
      · exact absurd heq (by simp)
      · exact ⟨rfl, hc⟩
    · rintro ⟨rfl, _⟩
      exact Or.inr rfl
  · simp only [hc, if_false, List.mem_singleton]
    constructor
    · intro heq
      exact absurd heq (by simp)
    · rintro ⟨rfl, ht⟩
      exact absurd ht hc

/-- C7: for every object location in a chunk handed to `addNewChunk`, a
ledger refresh of that planet is scheduled iff the location's id is already
known on the ledger; every location is recorded locally; and a chunk none of
whose locations are known on the ledger triggers no ledger call at all. -/
theorem addNewChunk_refresh_iff_known_on_ledger (L : Ledger) (s : GameState)
    (chunk : Chunk) (h : Nat) :
    (Effect.ledgerGetPlanetById h ∈ (addNewChunk L s chunk).2
      ↔ ((∃ loc ∈ chunk.planetLocations, loc.hash = h)
          ∧ isPlanetInContract s h = true))
  ∧ (∀ loc ∈ chunk.planetLocations,
      Effect.storeAddPlanetLocation loc.hash ∈ (addNewChunk L s chunk).2)
  ∧ (chunk.planetLocations.all (fun loc => !isPlanetInContract s loc.hash) = true →
      (addNewChunk L s chunk).2.all (fun e => !e.isLedgerRead) = true) := by
  refine ⟨?_, ?_, ?_⟩
  · simp only [addNewChunk, List.mem_cons, List.mem_flatMap,
      mem_chunkLocationEffects_getPlanetById]
    constructor
    · rintro (heq | ⟨loc, hloc, rfl, ht⟩)
      · exact absurd heq (by simp)
      · exact ⟨⟨loc, hloc, rfl⟩, ht⟩
    · rintro ⟨⟨loc, hloc, rfl⟩, ht⟩
      exact Or.inr ⟨loc, hloc, rfl, ht⟩
  · intro loc hloc
    simp only [addNewChunk, List.mem_cons, List.mem_flatMap]
    exact Or.inr ⟨loc, hloc, by simp [chunkLocationEffects]⟩
  · intro hall
    rw [List.all_eq_true] at hall ⊢
    intro e he
    simp only [addNewChunk, List.mem_cons, List.mem_flatMap] at he
    rcases he with rfl | ⟨loc, hloc, hin⟩
    · rfl
    · have hfalse : isPlanetInContract s loc.hash = false := by
        have := hall loc hloc
        simpa using this
      simp only [chunkLocationEffects, hfalse, Bool.false_eq_true, if_false,
        List.mem_singleton] at hin
      subst hin
      rfl

/-- Witness for C7 at the fixtures: in `sampleChunk` against `sampleState`,
location id 1 is known on the ledger and is the one scheduled for refresh. -/
theorem addNewChunk_refresh_witness :
    (Effect.ledgerGetPlanetById 1 ∈ (addNewChunk sampleLedger sampleState sampleChunk).2
      ↔ ((∃ loc ∈ sampleChunk.planetLocations, loc.hash = 1)
          ∧ isPlanetInContract sampleState 1 = true))
  ∧ (∀ loc ∈ sampleChunk.planetLocations,
      Effect.storeAddPlanetLocation loc.hash ∈ (addNewChunk sampleLedger sampleState sampleChunk).2)
  ∧ (sampleChunk.planetLocations.all (fun loc => !isPlanetInContract sampleState loc.hash) = true →
      (addNewChunk sampleLedger sampleState sampleChunk).2.all (fun e => !e.isLedgerRead) = true) :=
  addNewChunk_refresh_iff_known_on_ledger sampleLedger sampleState sampleChunk 1

/-- C2: while a planet has an unconfirmed reveal intent (or while any reveal
is unconfirmed in the store), a further `revealLocation` call throws: it
returns an error having issued no effect at all — in particular the
optimistic flag is not set and `contractsAPI.reveal` is never kicked off —
and the state is unchanged. -/
theorem revealLocation_duplicate_rejected (s : GameState) (p : Nat)
    (hEnd : s.gameHasEnded = false) (hAcct : s.account.isNone = false)
    (hDup : (∃ pl, lookupPlanet s p = some pl ∧ pl.unconfirmedReveal = true)
            ∨ s.pendingReveal.isSome = true) :
    (revealLocation s p).error.isSome = true
  ∧ (revealLocation s p).effects = []
  ∧ (revealLocation s p).state = s := by
  unfold revealLocation
  simp only [hEnd, hAcct, Bool.false_eq_true, if_false]
  cases hlp : lookupPlanet s p with
  | none => simp
  | some pl =>
    simp only []
    by_cases hl : pl.location.isNone = true
    · simp [hl]
    · by_cases hcr : pl.coordsRevealed = true
      · simp [hl, hcr]
      · by_cases hur : pl.unconfirmedReveal = true
        · simp [hl, hcr, hur]
        · by_cases hpr : s.pendingReveal.isSome = true
          · simp [hl, hcr, hur, hpr]
          · rcases hDup with ⟨pl2, hlp2, hflag⟩ | hp
            · rw [hlp] at hlp2
              cases hlp2
              exact absurd hflag hur
            · exact absurd hp hpr

/-- Witness for C2 at the fixtures: planet 1 of `sampleState` has an
unconfirmed reveal, and a second reveal call on it is rejected with no
effects. -/
theorem revealLocation_duplicate_witness :
    (revealLocation sampleState 1).error.isSome = true
  ∧ (revealLocation sampleState 1).effects = []
  ∧ (revealLocation sampleState 1).state = sampleState :=
  revealLocation_duplicate_rejected sampleState 1 rfl rfl
    (Or.inl ⟨samplePlanet, rfl, rfl⟩)

/-- C3: a move whose destination coordinates satisfy
`newX² + newY² ≥ worldRadius²` throws the out-of-bounds validation error
synchronously: the state is unchanged and none of the effects issued before
the throw is an entity-store mutation or a network call. -/
theorem move_out_of_bounds_rejected (s : GameState) (fromId toId : Nat)
    (forces silver : Int) (artifactMoved : Option Nat)
    (oldLoc newLoc : WorldLocation)
    (hEnd : s.gameHasEnded = false)
    (hFrom : getLocationOfPlanet s fromId = some oldLoc)
    (hTo : getLocationOfPlanet s toId = some newLoc)
    (hOOB : newLoc.coords.x ^ 2 + newLoc.coords.y ^ 2 ≥ s.worldRadius ^ 2) :
    (move s fromId toId forces silver artifactMoved false).error = some .outOfBoundsMove
  ∧ (move s fromId toId forces silver artifactMoved false).state = s
  ∧ (move s fromId toId forces silver artifactMoved false).effects.all
      (fun e => !e.isEntityStoreMutation && !e.isNetworkCall) = true := by
  unfold move
  simp only [hEnd, hFrom, hTo, Bool.false_eq_true, Bool.not_false, Bool.and_false,
    Bool.true_and, if_false]
  rw [if_pos hOOB]
  exact ⟨rfl, rfl, rfl⟩

/-- Witness for C3 at the fixtures: moving from planet 1 to planet 2 at
`(10, 10)` with world radius 5 is rejected out of bounds. -/
theorem move_out_of_bounds_witness :
    (move sampleState 1 2 50 0 none false).error = some .outOfBoundsMove
  ∧ (move sampleState 1 2 50 0 none false).state = sampleState
  ∧ (move sampleState 1 2 50 0 none false).effects.all
      (fun e => !e.isEntityStoreMutation && !e.isNetworkCall) = true :=
  move_out_of_bounds_rejected sampleState 1 2 50 0 none ⟨⟨1, 2⟩, 1⟩ ⟨⟨10, 10⟩, 2⟩
    rfl rfl rfl (by decide)

/-- Any single non-discovery mining operation keeps a zero hash rate at
zero. -/
theorem applyMiningOp_keeps_hashRate_zero (L : Ledger) (s : GameState)
    (headOp : MiningOp) (hop : headOp.isDiscovery = false)
    (h0 : s.hashRate = 0) : (applyMiningOp L s headOp).hashRate = 0 := by
  cases headOp with
  | doStartExplore =>
    cases hm : s.minerManager <;> simp [applyMiningOp, startExplore, hm, h0]
  | doStopExplore =>
    cases hm : s.minerManager <;> simp [applyMiningOp, stopExplore, hm, h0]
  | doSetRadius r => simp [applyMiningOp, setRadius, h0]
  | doAddChunk chunk => simp [applyMiningOp, addNewChunk, h0]
  | chunkDiscovered chunk millis => simp [MiningOp.isDiscovery] at hop

/-- A sequence of non-discovery mining operations keeps a zero hash rate at
zero. -/
theorem applyMiningOps_keeps_hashRate_zero (L : Ledger) (ops : List MiningOp) :
    ∀ s : GameState, ops.all (fun headOp => !headOp.isDiscovery) = true →
      s.hashRate = 0 → (applyMiningOps L s ops).hashRate = 0 := by
  induction ops with
  | nil => intro s _ h0; exact h0
  | cons headOp rest ih =>
    intro s hall h0
    rw [List.all_cons, Bool.and_eq_true] at hall
    exact ih (applyMiningOp L s headOp)
      hall.2 (applyMiningOp_keeps_hashRate_zero L s headOp (by simpa using hall.1) h0)

/-- C10: when a miner manager exists, `stopExplore` sets the reported
hashes-per-second to 0, and it stays 0 across any further operations until
the next chunk-discovery event; `startExplore` never changes the reported
rate. -/
theorem stopExplore_zeroes_hash_rate (L : Ledger) (s : GameState)
    (ops : List MiningOp) (hMiner : s.minerManager = true)
    (hNoDisc : ops.all (fun headOp => !headOp.isDiscovery) = true) :
    getHashesPerSec (applyMiningOps L (stopExplore s).1 ops) = 0
  ∧ (∀ s2 : GameState, getHashesPerSec (startExplore s2).1 = getHashesPerSec s2) := by
  constructor
  · exact applyMiningOps_keeps_hashRate_zero L ops (stopExplore s).1 hNoDisc
      (by simp [stopExplore, hMiner])
  · intro s2
    cases hm : s2.minerManager <;> simp [startExplore, getHashesPerSec, hm]

/-- Witness for C10 at the fixtures: stop mining in `sampleState`, then
start again, resize the radius and import a chunk — the reported rate stays
0. -/
theorem stopExplore_zeroes_hash_rate_witness :
    getHashesPerSec (applyMiningOps sampleLedger (stopExplore sampleState).1
      [.doStartExplore, .doSetRadius 50, .doAddChunk sampleChunk, .doStopExplore]) = 0
  ∧ (∀ s2 : GameState, getHashesPerSec (startExplore s2).1 = getHashesPerSec s2) :=
  stopExplore_zeroes_hash_rate sampleLedger sampleState
    [.doStartExplore, .doSetRadius 50, .doAddChunk sampleChunk, .doStopExplore]
    rfl (by decide)
